import Mathlib

/-!
Shallow embedding of the nevermined-io/image-video-generation-mcp server
(TypeScript) in Lean 4.

The repository's `src/index.ts` contains two near-identical server variants;
we embed the first one (content-length-header based materializer, `image/png`
MIME for images) under `ServerV1` and the second one (`byteLength` based
materializer, `image/jpeg` MIME) under `ServerV2`.  The payment manager
(`src/services/nevermined/manager.ts`) is embedded under `PaymentsManager`
and the generation client (`src/services/video/service.ts`) under
`VideoService`.

External I/O (HTTP fetches, the payments SDK) is modelled by passing each
call's outcome in explicitly as an `Except Err _` value; a thrown JavaScript
exception is the `.error` case.  Machine bytes are `Nat`s below 256; byte
buffers are `List Nat`; JavaScript strings are Lean `String`s, and the base64
output string is modelled as its list of characters.
-/

/-- A thrown JavaScript value: either an `Error` object carrying a message, or
some other value rendered by `String(error)`. -/
inductive Err where
  | errObj (msg : String)
  | other (s : String)
deriving DecidableEq

/-- Models `error instanceof Error ? error.message : String(error)`. -/
def errText : Err → String
  | .errObj m => m
  | .other s => s

/-- Models JavaScript string falsiness (`!s` for `s : string | undefined`):
true when the value is `undefined` or the empty string. -/
def strFalsy : Option String → Bool
  | none => true
  | some s => s.isEmpty

/-- Models `s || d` on JavaScript strings: the fallback is taken when `s` is
`undefined` or empty. -/
def jsOrStr : Option String → String → String
  | none, d => d
  | some s, d => if s.isEmpty then d else s

/-- Models a JavaScript `try { body } catch (e) { handler }` block whose body
is an exception-producing computation. -/
def tryCatchE (body : Except Err α) (handler : Err → Except Err α) : Except Err α :=
  match body with
  | .ok v => .ok v
  | .error e => handler e

/-- Models JavaScript `String.prototype.replace` with a string pattern, which
replaces only the first occurrence. -/
def replaceFirstAux (pat rep : List Char) : List Char → List Char
  | [] => []
  | c :: rest =>
    if pat.isPrefixOf (c :: rest) then rep ++ (c :: rest).drop pat.length
    else c :: replaceFirstAux pat rep rest

/-- String wrapper for `replaceFirstAux`. -/
def replaceFirst (s pat rep : String) : String :=
  ⟨replaceFirstAux pat.data rep.data s.data⟩

/-- Models `parseInt` on a string as used for the `content-length` header:
`none` stands for `NaN` (no leading digits); a leading digit run parses to its
value.  (Sign/whitespace handling is irrelevant to HTTP header values.) -/
def parseIntJS (s : String) : Option Nat :=
  let digits := s.data.takeWhile (fun c => c.isDigit)
  if digits.isEmpty then none
  else some (digits.foldl (fun acc c => acc * 10 + (c.toNat - 48)) 0)

/-- Models the JavaScript comparison `x > m` where `x` may be `NaN`
(`none`): any comparison against `NaN` is false. -/
def jsGTNat : Option Nat → Nat → Bool
  | none, _ => false
  | some n, m => n > m

/-! ## Base64 (Node `Buffer.toString("base64")`) -/

/-- The base64 alphabet: maps a sextet `0 ≤ n < 64` to its character. -/
def sextetChar (n : Nat) : Char :=
  if n < 26 then Char.ofNat (65 + n)
  else if n < 52 then Char.ofNat (97 + (n - 26))
  else if n < 62 then Char.ofNat (48 + (n - 52))
  else if n = 62 then '+'
  else '/'

/-- Inverse of the base64 alphabet; 64 on characters outside the alphabet. -/
def charSextet (c : Char) : Nat :=
  let n := c.toNat
  if 65 ≤ n ∧ n ≤ 90 then n - 65
  else if 97 ≤ n ∧ n ≤ 122 then n - 97 + 26
  else if 48 ≤ n ∧ n ≤ 57 then n - 48 + 52
  else if n = 43 then 62
  else if n = 47 then 63
  else 64

/-- Standard padded base64 encoding of a byte list, as produced by Node's
`Buffer.from(data).toString("base64")`. -/
def encodeB64 : List Nat → List Char
  | [] => []
  | [a] => [sextetChar (a / 4), sextetChar (a % 4 * 16), '=', '=']
  | [a, b] => [sextetChar (a / 4), sextetChar (a % 4 * 16 + b / 16),
               sextetChar (b % 16 * 4), '=']
  | a :: b :: c :: rest =>
      sextetChar (a / 4) :: sextetChar (a % 4 * 16 + b / 16) ::
      sextetChar (b % 16 * 4 + c / 64) :: sextetChar (c % 64) :: encodeB64 rest

/-- Standard base64 decoding (quartets of characters to byte triples,
honouring `=` padding). -/
def decodeB64 : List Char → List Nat
  | w :: x :: y :: z :: rest =>
      if y = '=' then [charSextet w * 4 + charSextet x / 16]
      else if z = '=' then
        [charSextet w * 4 + charSextet x / 16,
         charSextet x % 16 * 16 + charSextet y / 4]
      else
        (charSextet w * 4 + charSextet x / 16) ::
        (charSextet x % 16 * 16 + charSextet y / 4) ::
        (charSextet y % 4 * 64 + charSextet z) :: decodeB64 rest
  | _ => []

theorem charSextet_sextetChar : ∀ n, n < 64 → charSextet (sextetChar n) = n := by
  decide

theorem sextetChar_ne_pad : ∀ n, n < 64 → sextetChar n ≠ '=' := by
  decide

theorem b64arith0 (r : Nat) : r * 16 / 16 = r := by omega

theorem b64arith1 (r q : Nat) (hq : q < 16) : (r * 16 + q) / 16 = r := by omega

theorem b64arith2 (r q : Nat) (hq : q < 16) : (r * 16 + q) % 16 = q := by omega

theorem b64arith3 (s t : Nat) (ht : t < 4) : (s * 4 + t) / 4 = s := by omega

theorem b64arith4 (s t : Nat) (ht : t < 4) : (s * 4 + t) % 4 = t := by omega

theorem b64arith5 (s : Nat) : s * 4 / 4 = s := by omega

theorem decodeB64_encodeB64 (l : List Nat) (h : ∀ b ∈ l, b < 256) :
    decodeB64 (encodeB64 l) = l := by
  induction l using encodeB64.induct with
  | case1 => simp [encodeB64, decodeB64]
  | case2 a =>
    have ha : a < 256 := h a (by simp)
    have h1 : a / 4 < 64 := by omega
    have h2 : a % 4 * 16 < 64 := by omega
    simp only [encodeB64, decodeB64, if_pos rfl,
      charSextet_sextetChar _ h1, charSextet_sextetChar _ h2,
      List.cons.injEq, and_true, ite_true, b64arith0]
    omega
  | case3 a b =>
    have ha : a < 256 := h a (by simp)
    have hb : b < 256 := h b (by simp)
    have h1 : a / 4 < 64 := by omega
    have h2 : a % 4 * 16 + b / 16 < 64 := by omega
    have h3 : b % 16 * 4 < 64 := by omega
    have hq : b / 16 < 16 := by omega
    simp only [encodeB64, decodeB64, if_neg (sextetChar_ne_pad _ h3), if_pos rfl,
      charSextet_sextetChar _ h1, charSextet_sextetChar _ h2,
      charSextet_sextetChar _ h3, List.cons.injEq, and_true, ite_true,
      b64arith1 _ _ hq, b64arith2 _ _ hq, b64arith5]
    omega
  | case4 a b c rest ih =>
    have ha : a < 256 := h a (by simp)
    have hb : b < 256 := h b (by simp)
    have hc : c < 256 := h c (by simp)
    have h1 : a / 4 < 64 := by omega
    have h2 : a % 4 * 16 + b / 16 < 64 := by omega
    have h3 : b % 16 * 4 + c / 64 < 64 := by omega
    have h4 : c % 64 < 64 := by omega
    have hrest : ∀ x ∈ rest, x < 256 := by
      intro x hx
      exact h x (by simp [hx])
    have hq : b / 16 < 16 := by omega
    have ht : c / 64 < 4 := by omega
    simp only [encodeB64, decodeB64, if_neg (sextetChar_ne_pad _ h3),
      if_neg (sextetChar_ne_pad _ h4),
      charSextet_sextetChar _ h1, charSextet_sextetChar _ h2,
      charSextet_sextetChar _ h3, charSextet_sextetChar _ h4, ih hrest,
      List.cons.injEq, and_true,
      b64arith1 _ _ hq, b64arith2 _ _ hq, b64arith3 _ _ ht, b64arith4 _ _ ht]
    omega

/-! ## PaymentsManager (`src/services/nevermined/manager.ts`) -/

namespace PaymentsManager

/-- The `balance` field of `payments.getPlanBalance`'s result after the
`Number(...)` conversion; `none` stands for a non-numeric value (`NaN`). -/
structure BalanceResult where
  balance : Option Int := none
deriving DecidableEq

/-- Models the JavaScript comparison `Number(balance) >= minRequired`:
false when the converted balance is `NaN`. -/
def numGE : Option Int → Int → Bool
  | none, _ => false
  | some n, m => n ≥ m

/-- Innermost level of the DDO path read by `extractRequiredBalance`. -/
structure NftAttributes where
  minCreditsRequired : Option Int := none
deriving DecidableEq

/-- `attributes.main` level of a DDO service entry. -/
structure MainAttrs where
  nftAttributes : Option NftAttributes := none
deriving DecidableEq

/-- `attributes` level of a DDO service entry. -/
structure ServiceAttrs where
  main : Option MainAttrs := none
deriving DecidableEq

/-- One entry of a DDO's `service` array. -/
structure ServiceEntry where
  attributes : Option ServiceAttrs := none
deriving DecidableEq

/-- An agent descriptor document (`getAssetDDO` result); `none` at the outer
level models an `undefined`/`null` document. -/
structure DDO where
  service : List ServiceEntry := []
deriving DecidableEq

/-- Embeds `extractRequiredBalance`: reads
`ddo?.service?.[2]?.attributes?.main?.nftAttributes?.minCreditsRequired || 0`
(optional chaining yields 0 at any missing level; `x || 0` maps 0 to 0, which
is the identity on numbers). -/
def extractRequiredBalance (ddo : Option DDO) : Int :=
  match ddo with
  | none => 0
  | some d =>
    match d.service[2]? with
    | none => 0
    | some entry =>
      match entry.attributes with
      | none => 0
      | some attrs =>
        match attrs.main with
        | none => 0
        | some m =>
          match m.nftAttributes with
          | none => 0
          | some nft =>
            match nft.minCreditsRequired with
            | none => 0
            | some v => v

/-- Embeds `checkBalance`: awaits `getPlanBalance` then `getAssetDDO` inside a
`try`, compares `Number(balance) >= minRequired`, and the `catch` returns
`false`.  The two fetch outcomes are passed in explicitly. -/
def checkBalance (balRes : Except Err BalanceResult)
    (ddoRes : Except Err (Option DDO)) : Except Err Bool :=
  tryCatchE
    (do
      let b ← balRes
      let ddo ← ddoRes
      let minRequired := extractRequiredBalance ddo
      pure (numGE b.balance minRequired))
    (fun _ => .ok false)

/-- The result object of `payments.orderPlan`. -/
structure PurchaseResult where
  success : Bool
  agreementId : Option String := none
deriving DecidableEq

/-- The `{success, message}` object returned by `orderPlan`. -/
structure OrderResult where
  success : Bool
  message : Option String := none
deriving DecidableEq

/-- Embeds `orderPlan`: a falsy (`none`) or unsuccessful purchase result maps
to the generic failure message; an exception maps to its message; a
successful result maps to the confirmation message carrying the agreement id
(an absent id renders as the string "undefined" in the template literal). -/
def orderPlan (purchaseRes : Except Err (Option PurchaseResult)) :
    Except Err OrderResult :=
  tryCatchE
    (match purchaseRes with
     | .error e => .error e
     | .ok none => .ok { success := false, message := some "Failed to create order" }
     | .ok (some p) =>
       if !p.success then
         .ok { success := false, message := some "Failed to create order" }
       else
         .ok { success := true,
               message := some ("Plan ordered successfully. Agreement ID: "
                 ++ p.agreementId.getD "undefined") })
    (fun e => .ok { success := false, message := some (errText e) })

/-- The raw object returned by `payments.query.getServiceAccessConfig`; its
fields may be absent.  `none` at the outer level models a falsy result. -/
structure RawAccessConfig where
  neverminedProxyUri : Option String := none
  accessToken : Option String := none
deriving DecidableEq

/-- The `ServiceAccessConfig` interface of `manager.ts`. -/
structure ServiceAccessConfig where
  neverminedProxyUri : String
  accessToken : String
deriving DecidableEq

/-- Embeds `getServiceAccess`: a falsy config or falsy `accessToken` throws
`Error("Failed to get service access configuration")`; an absent
`neverminedProxyUri` makes `.replace` throw a `TypeError`; the `catch` block
rethrows whatever was thrown, so every failure propagates.  On success the
proxy URI has its first "https" replaced by "http". -/
def getServiceAccess (res : Except Err (Option RawAccessConfig)) :
    Except Err ServiceAccessConfig :=
  tryCatchE
    (match res with
     | .error e => .error e
     | .ok cfgOpt =>
       match cfgOpt with
       | none => .error (.errObj "Failed to get service access configuration")
       | some cfg =>
         if strFalsy cfg.accessToken then
           .error (.errObj "Failed to get service access configuration")
         else
           match cfg.neverminedProxyUri with
           | none => .error (.errObj
               "Cannot read properties of undefined (reading 'replace')")
           | some uri => .ok { neverminedProxyUri := replaceFirst uri "https" "http",
                               accessToken := cfg.accessToken.getD "" })
    (fun e => .error e)

/-- A constructed `VideoService` instance (its two constructor arguments). -/
structure VideoServiceInst where
  baseUrl : String
  accessToken : String
deriving DecidableEq

/-- Embeds `getVideoService`: awaits `getServiceAccess` with no `try`/`catch`,
so its failure propagates; on success constructs a `VideoService`. -/
def getVideoService (res : Except Err (Option RawAccessConfig)) :
    Except Err VideoServiceInst :=
  match getServiceAccess res with
  | .error e => .error e
  | .ok cfg => .ok { baseUrl := cfg.neverminedProxyUri,
                     accessToken := cfg.accessToken }

end PaymentsManager

/-! ## VideoService (`src/services/video/service.ts`) -/

namespace VideoService

/-- The `MediaGenerationResponse` interface: all optional fields may be
absent. -/
structure MediaGenerationResponse where
  success : Bool
  message : Option String := none
  imageUrl : Option String := none
  url : Option String := none
deriving DecidableEq

/-- The JSON body the generation backend returns; either field may be absent
even on a 2xx response. -/
structure BackendJson where
  imageUrl : Option String := none
  url : Option String := none
deriving DecidableEq

/-- View of an `Except` value as a sum, used to derive decidable equality. -/
def exceptToSum : Except ε α → ε ⊕ α
  | .error e => .inl e
  | .ok a => .inr a

instance [DecidableEq ε] [DecidableEq α] : DecidableEq (Except ε α) :=
  fun a b =>
    decidable_of_iff (exceptToSum a = exceptToSum b)
      (by cases a <;> cases b <;> simp [exceptToSum])

/-- An HTTP response as seen by the `fetch` calls: the `ok` flag, the status
code, and the outcome of `response.json()` (which may itself throw). -/
structure HttpResp where
  ok : Bool
  status : Nat
  json : Except Err BackendJson
deriving DecidableEq

/-- Embeds `generateText2Image`: a network exception or a JSON-parse
exception is caught and becomes `{success:false, message}`; a non-2xx status
throws `Error(\x60HTTP error! status: ...\x60)` which the same `catch`
converts; a 2xx parsed response becomes `{success:true, imageUrl}` with
whatever `result.imageUrl` held (possibly absent). -/
def generateText2Image (r : Except Err HttpResp) : MediaGenerationResponse :=
  match r with
  | .error e => { success := false, message := some (errText e) }
  | .ok resp =>
    if !resp.ok then
      { success := false,
        message := some ("HTTP error! status: " ++ toString resp.status) }
    else
      match resp.json with
      | .error e => { success := false, message := some (errText e) }
      | .ok j => { success := true, imageUrl := j.imageUrl }

/-- Embeds `generateImage2Image`; identical control flow to
`generateText2Image` (the request body differs, not the result shaping). -/
def generateImage2Image (r : Except Err HttpResp) : MediaGenerationResponse :=
  match r with
  | .error e => { success := false, message := some (errText e) }
  | .ok resp =>
    if !resp.ok then
      { success := false,
        message := some ("HTTP error! status: " ++ toString resp.status) }
    else
      match resp.json with
      | .error e => { success := false, message := some (errText e) }
      | .ok j => { success := true, imageUrl := j.imageUrl }

/-- Embeds `generateText2Video`: same control flow, but the success result
carries `result.url` instead of `result.imageUrl`. -/
def generateText2Video (r : Except Err HttpResp) : MediaGenerationResponse :=
  match r with
  | .error e => { success := false, message := some (errText e) }
  | .ok resp =>
    if !resp.ok then
      { success := false,
        message := some ("HTTP error! status: " ++ toString resp.status) }
    else
      match resp.json with
      | .error e => { success := false, message := some (errText e) }
      | .ok j => { success := true, url := j.url }

end VideoService

/-! ## MCP tool layer (`src/index.ts`, two server variants) -/

/-- The plan DID fixed in the configuration of both server variants. -/
def PLAN_DID : String :=
  "did:nv:bbc5556a932bdeb88bbe45045530e491ad428b351fb43c8bd4be04dba7878a3d"

/-- One item of an MCP tool response's `content` array. -/
inductive ContentItem where
  | text (s : String)
  | image (dataB64 : List Char) (mimeType : String)
  | resourceBlob (uri : String) (blob : List Char) (mimeType : String)
  | resourceText (uri : String) (text : String) (mimeType : String)
deriving DecidableEq

/-- The `metadata` object attached to the purchase-prompt response. -/
structure ToolMetadata where
  needsPurchase : Bool
  planDid : String
deriving DecidableEq

/-- An MCP tool response envelope. -/
structure ToolResponse where
  isError : Bool := false
  content : List ContentItem
  metadata : Option ToolMetadata := none
deriving DecidableEq

/-- The external calls a generation-tool handler can make, in order. -/
inductive CallEvent where
  | checkBalance
  | getAccess
  | generate
  | download
deriving DecidableEq

/-- Renders `JSON.stringify({ planDid }, null, 2)`. -/
def planJson (did : String) : String :=
  "\x7b\n  \"planDid\": \"" ++ did ++ "\"\n\x7d"

/-- The purchase-prompt response emitted by every generation tool of both
server variants when the balance check resolves false. -/
def insufficientCreditsResponse : ToolResponse :=
  { content :=
      [ .text "Insufficient credits. Please purchase a plan using the purchase_plan tool with the following parameters:",
        .text (planJson PLAN_DID) ],
    metadata := some { needsPurchase := true, planDid := PLAN_DID } }

/-- The MIME type attached to a content item, when it has one. -/
def mimeOf : ContentItem → Option String
  | .text _ => none
  | .image _ m => some m
  | .resourceBlob _ _ m => some m
  | .resourceText _ _ m => some m

/-- The content array of a handler outcome (empty when the handler threw). -/
def respContent : Except Err ToolResponse × List CallEvent → List ContentItem
  | (.ok r, _) => r.content
  | (.error _, _) => []

/-- Models JavaScript truthiness of the base64 string held in
`imageBase64`/`videoBase64`: `null` and the empty string are falsy. -/
def jsTruthyB64 : Option (List Char) → Bool
  | none => false
  | some l => !l.isEmpty

/-! ### First server variant (`src/index.ts`, the copy using the
`content-length` header and `image/png`) -/

namespace ServerV1

/-- An axios response as used by this variant's `downloadAsBase64`: the raw
`content-length` header (absent on some responses) and the fetched bytes. -/
structure AxiosResponse where
  contentLengthHeader : Option String := none
  data : List Nat := []
deriving DecidableEq

/-- Embeds the first variant's `downloadAsBase64`: the inline decision reads
`parseInt(response.headers["content-length"] || "0")` — not the fetched byte
length — and the `catch` swallows any fetch error, returning `null`. -/
def downloadAsBase64 (res : Except Err AxiosResponse) : Option (List Char) :=
  match res with
  | .error _ => none
  | .ok r =>
    if jsGTNat (parseIntJS (r.contentLengthHeader.getD "0")) (1024 * 1024) then
      none
    else
      some (encodeB64 r.data)

/-- The inline-or-reference content of this variant's image tools: a truthy
base64 string yields an `image` item, otherwise a `resource` item. -/
def imageContent (uri : String) (inline : Option (List Char))
    (refText mt : String) : ContentItem :=
  if jsTruthyB64 inline then .image (inline.getD []) mt
  else .resourceText uri refText mt

/-- The outcomes of the external calls available to one tool invocation of
this variant (its balance check and access call go to the external
`mcp-payments-library`, so they are plain oracles here). -/
structure World where
  hasBalance : Bool
  accessRes : Except Err PaymentsManager.ServiceAccessConfig
  genHttp : Except Err VideoService.HttpResp
  fetchRes : Except Err AxiosResponse
deriving DecidableEq

/-- Embeds the first variant's `text2image` tool handler. -/
def text2image (w : World) : Except Err ToolResponse × List CallEvent :=
  if !w.hasBalance then
    (.ok insufficientCreditsResponse, [.checkBalance])
  else
    match w.accessRes with
    | .error e => (.error e, [.checkBalance, .getAccess])
    | .ok _cfg =>
      let result := VideoService.generateText2Image w.genHttp
      if !result.success || strFalsy result.imageUrl then
        (.ok { isError := true,
               content := [.text ("Error generating image: "
                 ++ jsOrStr result.message "No image URL returned")] },
         [.checkBalance, .getAccess, .generate])
      else
        (.ok { content := [imageContent (result.imageUrl.getD "")
                 (downloadAsBase64 w.fetchRes) "Generated image" "image/png"] },
         [.checkBalance, .getAccess, .generate, .download])

/-- Embeds the first variant's `image2image` tool handler (the whole body is
wrapped in a `try`/`catch` that renders a generic error text). -/
def image2image (w : World) : Except Err ToolResponse × List CallEvent :=
  let inner : Except Err ToolResponse × List CallEvent :=
    if !w.hasBalance then
      (.ok insufficientCreditsResponse, [.checkBalance])
    else
      match w.accessRes with
      | .error e => (.error e, [.checkBalance, .getAccess])
      | .ok _cfg =>
        let result := VideoService.generateImage2Image w.genHttp
        if !result.success || strFalsy result.imageUrl then
          (.ok { isError := true,
                 content := [.text ("Error transforming image: "
                   ++ jsOrStr result.message "No image URL returned")] },
           [.checkBalance, .getAccess, .generate])
        else
          (.ok { content := [imageContent (result.imageUrl.getD "")
                   (downloadAsBase64 w.fetchRes) "Transformed image" "image/png"] },
           [.checkBalance, .getAccess, .generate, .download])
  match inner with
  | (.error e, tr) =>
    (.ok { isError := true,
           content := [.text ("Error in image transformation: " ++ errText e)] },
     tr)
  | ok => ok

/-- Embeds the first variant's `text2video` tool handler: videos are never
downloaded; the URL reference is always returned. -/
def text2video (w : World) : Except Err ToolResponse × List CallEvent :=
  if !w.hasBalance then
    (.ok insufficientCreditsResponse, [.checkBalance])
  else
    match w.accessRes with
    | .error e => (.error e, [.checkBalance, .getAccess])
    | .ok _cfg =>
      let result := VideoService.generateText2Video w.genHttp
      if !result.success || strFalsy result.url then
        (.ok { isError := true,
               content := [.text ("Error generating video: "
                 ++ jsOrStr result.message "No video URL returned")] },
         [.checkBalance, .getAccess, .generate])
      else
        (.ok { content := [.resourceText (result.url.getD "")
                 "Generated video" "video/mp4"] },
         [.checkBalance, .getAccess, .generate])

end ServerV1

/-! ### Second server variant (`src/index.ts`, the copy using
`PaymentsManager`, `byteLength` and `image/jpeg`) -/

namespace ServerV2

/-- Embeds the second variant's `downloadAsBase64`: the decision reads the
fetched buffer's `byteLength`; content strictly larger than 1 MiB yields
`null`; the `catch` rethrows, so a fetch failure propagates. -/
def downloadAsBase64 (res : Except Err (List Nat)) :
    Except Err (Option (List Char)) :=
  tryCatchE
    (match res with
     | .error e => .error e
     | .ok data =>
       if data.length > 1024 * 1024 then .ok none
       else .ok (some (encodeB64 data)))
    (fun e => .error e)

/-- The inline-or-reference resource of this variant's tools: a truthy
base64 string yields a `blob` resource, otherwise a text resource. -/
def mediaResource (uri : String) (inline : Option (List Char))
    (refText mt : String) : ContentItem :=
  if jsTruthyB64 inline then .resourceBlob uri (inline.getD []) mt
  else .resourceText uri refText mt

/-- The outcomes of the external calls available to one tool invocation of
this variant; the balance and access calls go through the embedded
`PaymentsManager`. -/
structure World where
  balRes : Except Err PaymentsManager.BalanceResult
  ddoRes : Except Err (Option PaymentsManager.DDO)
  accessRes : Except Err (Option PaymentsManager.RawAccessConfig)
  genHttp : Except Err VideoService.HttpResp
  fetchRes : Except Err (List Nat)
deriving DecidableEq

/-- Embeds the second variant's `text2image` tool handler (no `try`/`catch`:
a thrown access or download error propagates out of the handler). -/
def text2image (w : World) : Except Err ToolResponse × List CallEvent :=
  match PaymentsManager.checkBalance w.balRes w.ddoRes with
  | .error e => (.error e, [.checkBalance])
  | .ok hasBalance =>
    if !hasBalance then
      (.ok insufficientCreditsResponse, [.checkBalance])
    else
      match PaymentsManager.getVideoService w.accessRes with
      | .error e => (.error e, [.checkBalance, .getAccess])
      | .ok _svc =>
        let result := VideoService.generateText2Image w.genHttp
        if !result.success || strFalsy result.imageUrl then
          (.ok { isError := true,
                 content := [.text ("Error generating image: "
                   ++ jsOrStr result.message "No image URL returned")] },
           [.checkBalance, .getAccess, .generate])
        else
          match downloadAsBase64 w.fetchRes with
          | .error e => (.error e, [.checkBalance, .getAccess, .generate, .download])
          | .ok inline =>
            (.ok { content := [mediaResource (result.imageUrl.getD "") inline
                     "Image too large to display directly" "image/jpeg"] },
             [.checkBalance, .getAccess, .generate, .download])

/-- Embeds the second variant's `image2image` tool handler; its `try`/`catch`
maps any thrown error to a fixed error response. -/
def image2image (w : World) : Except Err ToolResponse × List CallEvent :=
  let inner : Except Err ToolResponse × List CallEvent :=
    match PaymentsManager.checkBalance w.balRes w.ddoRes with
    | .error e => (.error e, [.checkBalance])
    | .ok hasBalance =>
      if !hasBalance then
        (.ok insufficientCreditsResponse, [.checkBalance])
      else
        match PaymentsManager.getVideoService w.accessRes with
        | .error e => (.error e, [.checkBalance, .getAccess])
        | .ok _svc =>
          let result := VideoService.generateImage2Image w.genHttp
          if !result.success || strFalsy result.imageUrl then
            (.ok { isError := true,
                   content := [.text ("Error transforming image: "
                     ++ jsOrStr result.message "No image URL returned")] },
             [.checkBalance, .getAccess, .generate])
          else
            match downloadAsBase64 w.fetchRes with
            | .error e => (.error e, [.checkBalance, .getAccess, .generate, .download])
            | .ok inline =>
              (.ok { content := [mediaResource (result.imageUrl.getD "") inline
                       "Image too large to display directly" "image/jpeg"] },
               [.checkBalance, .getAccess, .generate, .download])
  match inner with
  | (.error _, tr) =>
    (.ok { isError := true, content := [.text "Error transforming image"] }, tr)
  | ok => ok

/-- Embeds the second variant's `text2video` tool handler: unlike the first
variant it downloads the video and may inline it as a blob. -/
def text2video (w : World) : Except Err ToolResponse × List CallEvent :=
  match PaymentsManager.checkBalance w.balRes w.ddoRes with
  | .error e => (.error e, [.checkBalance])
  | .ok hasBalance =>
    if !hasBalance then
      (.ok insufficientCreditsResponse, [.checkBalance])
    else
      match PaymentsManager.getVideoService w.accessRes with
      | .error e => (.error e, [.checkBalance, .getAccess])
      | .ok _svc =>
        let result := VideoService.generateText2Video w.genHttp
        if !result.success || strFalsy result.url then
          (.ok { isError := true,
                 content := [.text ("Error generating video: "
                   ++ jsOrStr result.message "No video URL returned")] },
           [.checkBalance, .getAccess, .generate])
        else
          match downloadAsBase64 w.fetchRes with
          | .error e => (.error e, [.checkBalance, .getAccess, .generate, .download])
          | .ok inline =>
            (.ok { content := [mediaResource (result.url.getD "") inline
                     "Video too large to display directly" "video/mp4"] },
             [.checkBalance, .getAccess, .generate, .download])

end ServerV2

/-! ## Claim theorems -/

/-- Branch characterization of the second variant's `downloadAsBase64` on a
successful fetch, proved once and shared below. -/
theorem downloadAsBase64V2_spec (data : List Nat) :
    ServerV2.downloadAsBase64 (.ok data)
      = if data.length > 1024 * 1024 then .ok none else .ok (some (encodeB64 data)) := by
  by_cases h : data.length > 1024 * 1024
  · simp [ServerV2.downloadAsBase64, tryCatchE, h]
  · simp [ServerV2.downloadAsBase64, tryCatchE, h]

/-- C1 counterexample: an artifact of exactly 1,048,576 bytes is NOT returned
as reference-only by the second variant's `downloadAsBase64` — the guard is
`byteLength > 1024*1024`, so the exact boundary value is base64-inlined. -/
theorem materializer_exact_threshold_inlined :
    ServerV2.downloadAsBase64 (.ok (List.replicate (1024 * 1024) 0)) ≠ .ok none := by
  rw [downloadAsBase64V2_spec, List.length_replicate,
    if_neg (by omega : ¬ ((1024 * 1024 : Nat) > 1024 * 1024))]
  intro hcontra
  exact Option.noConfusion (Except.ok.inj hcontra)

/-- C1 (amended): the materialization boundary is strict — every fetched
artifact of at most 1,048,576 bytes (including exactly 1,048,576) is returned
base64-inlined, and every artifact of strictly more than 1,048,576 bytes is
returned reference-only. -/
theorem materializer_threshold_boundary (data : List Nat) :
    (data.length ≤ 1024 * 1024 →
       ServerV2.downloadAsBase64 (.ok data) = .ok (some (encodeB64 data)))
      ∧ (data.length > 1024 * 1024 →
           ServerV2.downloadAsBase64 (.ok data) = .ok none) := by
  rw [downloadAsBase64V2_spec]
  constructor
  · intro h
    rw [if_neg (by omega)]
  · intro h
    rw [if_pos h]

/-- C1 witness: the boundary theorem evaluated at a 1-byte artifact and at a
1,048,577-byte artifact. -/
theorem materializer_threshold_boundary_witness :
    ServerV2.downloadAsBase64 (.ok [7]) = .ok (some (encodeB64 [7]))
      ∧ ServerV2.downloadAsBase64 (.ok (List.replicate (1024 * 1024 + 1) 0)) = .ok none :=
  ⟨(materializer_threshold_boundary [7]).1 (by decide),
   (materializer_threshold_boundary (List.replicate (1024 * 1024 + 1) 0)).2
     (by rw [List.length_replicate]; omega)⟩

/-- C5 counterexample: in the FIRST server variant's `downloadAsBase64`, a
fetch failure is caught and returns `null` — exactly the same outcome as the
"too large" reference-only branch — instead of propagating. -/
theorem first_variant_swallows_download_failure :
    ServerV1.downloadAsBase64 (.error (.errObj "ECONNRESET")) = none
      ∧ ServerV1.downloadAsBase64
          (.ok { contentLengthHeader := some "2000000", data := [] }) = none := by
  exact ⟨rfl, by decide⟩

/-- C5 (amended): the second variant's `downloadAsBase64` rethrows any fetch
failure, so a download error reaches the tool caller as an explicit failure
and is never mapped to the reference-only outcome; the first variant's copy,
by contrast, swallows the failure and returns `null`. -/
theorem download_failure_propagation_by_variant :
    (∀ e, ServerV2.downloadAsBase64 (.error e) = .error e)
      ∧ (∀ e data, ServerV2.downloadAsBase64 (.error e) ≠ .ok data)
      ∧ (∀ e, ServerV1.downloadAsBase64 (.error e) = none) := by
  refine ⟨fun e => rfl, fun e data => ?_, fun e => rfl⟩
  simp [ServerV2.downloadAsBase64, tryCatchE]

/-- C9: for every artifact small enough to be inlined, the inline content is
the base64 encoding of exactly the fetched bytes, and decoding it recovers
the original byte sequence. -/
theorem inline_content_roundtrips (data : List Nat)
    (hbytes : ∀ b ∈ data, b < 256) (hsize : data.length ≤ 1024 * 1024) :
    ServerV2.downloadAsBase64 (.ok data) = .ok (some (encodeB64 data))
      ∧ decodeB64 (encodeB64 data) = data := by
  refine ⟨?_, decodeB64_encodeB64 data hbytes⟩
  rw [downloadAsBase64V2_spec, if_neg (by omega)]

/-- C9 witness: the round-trip theorem evaluated at the 3-byte artifact
`[72, 105, 33]`. -/
theorem inline_content_roundtrips_witness :
    ServerV2.downloadAsBase64 (.ok [72, 105, 33])
        = .ok (some (encodeB64 [72, 105, 33]))
      ∧ decodeB64 (encodeB64 [72, 105, 33]) = [72, 105, 33] :=
  inline_content_roundtrips [72, 105, 33] (by decide) (by decide)

/-- C10: the first variant's `downloadAsBase64` decides inline-vs-reference
on the `content-length` header alone — the decision is independent of the
fetched byte buffer, and an absent header parses as 0, so the artifact is
inlined regardless of its actual size. -/
theorem header_based_materialization_decision :
    (∀ data : List Nat,
       ServerV1.downloadAsBase64 (.ok { contentLengthHeader := none, data := data })
         = some (encodeB64 data))
      ∧ (∀ hd : Option String, ∀ d₁ d₂ : List Nat,
           (ServerV1.downloadAsBase64
              (.ok { contentLengthHeader := hd, data := d₁ })).isNone
             = (ServerV1.downloadAsBase64
                  (.ok { contentLengthHeader := hd, data := d₂ })).isNone) := by
  constructor
  · intro data
    rfl
  · intro hd d₁ d₂
    simp only [ServerV1.downloadAsBase64]
    cases jsGTNat (parseIntJS (hd.getD "0")) (1024 * 1024) <;> simp

/-- C3: `checkBalance` never throws — any fetch failure resolves to `false`,
and when both fetches succeed it returns the numeric comparison
`balance >= minRequired`, where a DDO lacking the `minCreditsRequired` field
yields a minimum of 0. -/
theorem checkBalance_fail_closed :
    (∀ balRes ddoRes, ∃ b, PaymentsManager.checkBalance balRes ddoRes = .ok b)
      ∧ (∀ e ddoRes, PaymentsManager.checkBalance (.error e) ddoRes = .ok false)
      ∧ (∀ balRes e, PaymentsManager.checkBalance balRes (.error e) = .ok false)
      ∧ (∀ b d, PaymentsManager.checkBalance (.ok b) (.ok d)
           = .ok (PaymentsManager.numGE b.balance
               (PaymentsManager.extractRequiredBalance d)))
      ∧ PaymentsManager.extractRequiredBalance none = 0
      ∧ (∀ e₀ e₁ rest, PaymentsManager.extractRequiredBalance
           (some { service := e₀ :: e₁ :: { attributes := none } :: rest }) = 0) := by
  refine ⟨?_, ?_, ?_, ?_, rfl, ?_⟩
  · intro balRes ddoRes
    cases balRes with
    | error e => exact ⟨false, rfl⟩
    | ok b =>
      cases ddoRes with
      | error e => exact ⟨false, rfl⟩
      | ok d => exact ⟨_, rfl⟩
  · intro e ddoRes
    rfl
  · intro balRes e
    cases balRes <;> rfl
  · intro b d
    rfl
  · intro e₀ e₁ rest
    simp [PaymentsManager.extractRequiredBalance]

/-- C7: `orderPlan` never throws — a missing or unsuccessful purchase result
yields `{success:false}` with the generic message, an exception yields
`{success:false}` with the exception's message, and a successful purchase
yields `{success:true}` with the confirmation message carrying the agreement
id. -/
theorem orderPlan_never_throws :
    (∀ res, ∃ r, PaymentsManager.orderPlan res = .ok r)
      ∧ (∀ e, PaymentsManager.orderPlan (.error e)
           = .ok { success := false, message := some (errText e) })
      ∧ PaymentsManager.orderPlan (.ok none)
          = .ok { success := false, message := some "Failed to create order" }
      ∧ (∀ p, PaymentsManager.orderPlan (.ok (some p))
           = .ok (if p.success
               then { success := true,
                      message := some ("Plan ordered successfully. Agreement ID: "
                        ++ p.agreementId.getD "undefined") }
               else { success := false, message := some "Failed to create order" })) := by
  refine ⟨?_, fun e => rfl, rfl, ?_⟩
  · intro res
    cases res with
    | error e => exact ⟨_, rfl⟩
    | ok po =>
      cases po with
      | none => exact ⟨_, rfl⟩
      | some p =>
        cases hp : p.success
        · exact ⟨{ success := false, message := some "Failed to create order" },
            by simp [PaymentsManager.orderPlan, tryCatchE, hp]⟩
        · exact ⟨{ success := true,
                   message := some ("Plan ordered successfully. Agreement ID: "
                     ++ p.agreementId.getD "undefined") },
            by simp [PaymentsManager.orderPlan, tryCatchE, hp]⟩
  · intro p
    cases hp : p.success <;> simp [PaymentsManager.orderPlan, tryCatchE, hp]

/-- Helper: `checkBalance`'s catch-all always produces a value, never a
thrown error. -/
theorem checkBalance_total (balRes : Except Err PaymentsManager.BalanceResult)
    (ddoRes : Except Err (Option PaymentsManager.DDO)) :
    ∃ b, PaymentsManager.checkBalance balRes ddoRes = .ok b := by
  cases balRes with
  | error e => exact ⟨false, rfl⟩
  | ok b =>
    cases ddoRes with
    | error e => exact ⟨false, rfl⟩
    | ok d => exact ⟨_, rfl⟩

/-- Helper: `orderPlan`'s catch-all always produces a value, never a thrown
error. -/
theorem orderPlan_total (res : Except Err (Option PaymentsManager.PurchaseResult)) :
    ∃ r, PaymentsManager.orderPlan res = .ok r := by
  cases res with
  | error e => exact ⟨_, rfl⟩
  | ok po =>
    cases po with
    | none => exact ⟨_, rfl⟩
    | some p =>
      cases hp : p.success
      · exact ⟨{ success := false, message := some "Failed to create order" },
          by simp [PaymentsManager.orderPlan, tryCatchE, hp]⟩
      · exact ⟨{ success := true,
                 message := some ("Plan ordered successfully. Agreement ID: "
                   ++ p.agreementId.getD "undefined") },
          by simp [PaymentsManager.orderPlan, tryCatchE, hp]⟩

/-- Helper: branch characterization of `getServiceAccess` on a present raw
config. -/
theorem getServiceAccess_spec (cfg : PaymentsManager.RawAccessConfig) :
    PaymentsManager.getServiceAccess (.ok (some cfg))
      = if strFalsy cfg.accessToken then
          .error (.errObj "Failed to get service access configuration")
        else
          match cfg.neverminedProxyUri with
          | none => .error (.errObj
              "Cannot read properties of undefined (reading 'replace')")
          | some uri => .ok { neverminedProxyUri := replaceFirst uri "https" "http",
                              accessToken := cfg.accessToken.getD "" } := by
  by_cases h : strFalsy cfg.accessToken = true
  · simp [PaymentsManager.getServiceAccess, tryCatchE, h]
  · cases huri : cfg.neverminedProxyUri <;>
      simp [PaymentsManager.getServiceAccess, tryCatchE, h, huri]

/-- C4 counterexample: `getVideoService` — a broker operation other than
`getServiceAccess` — also propagates a thrown failure to its caller rather
than returning a result value, so `getServiceAccess` is not the only such
operation. -/
theorem getVideoService_also_propagates :
    PaymentsManager.getVideoService (.ok none)
      = .error (.errObj "Failed to get service access configuration") := rfl

/-- C4 (amended): `getServiceAccess` throws whenever the access configuration
is missing or lacks an `accessToken` and never returns a grant without a
token; it is the only broker operation that ORIGINATES a propagated failure —
`checkBalance` and `orderPlan` never throw, and `getVideoService` throws
exactly when the `getServiceAccess` it delegates to throws. -/
theorem getServiceAccess_failure_contract :
    (∀ res grant, PaymentsManager.getServiceAccess res = .ok grant →
        grant.accessToken.isEmpty = false)
      ∧ (∀ cfg grant, PaymentsManager.getServiceAccess (.ok (some cfg)) = .ok grant →
           cfg.accessToken = some grant.accessToken)
      ∧ (∃ e, PaymentsManager.getServiceAccess (.ok none) = .error e)
      ∧ (∀ cfg : PaymentsManager.RawAccessConfig, strFalsy cfg.accessToken = true →
           ∃ e, PaymentsManager.getServiceAccess (.ok (some cfg)) = .error e)
      ∧ (∀ e, PaymentsManager.getServiceAccess (.error e) = .error e)
      ∧ (∀ balRes ddoRes, ∃ b, PaymentsManager.checkBalance balRes ddoRes = .ok b)
      ∧ (∀ res, ∃ r, PaymentsManager.orderPlan res = .ok r)
      ∧ (∀ res e, PaymentsManager.getVideoService res = .error e
           ↔ PaymentsManager.getServiceAccess res = .error e) := by
  refine ⟨?_, ?_, ⟨_, rfl⟩, ?_, fun e => rfl, checkBalance_total, orderPlan_total, ?_⟩
  · intro res grant h
    cases res with
    | error e => simp [PaymentsManager.getServiceAccess, tryCatchE] at h
    | ok cfgOpt =>
      cases cfgOpt with
      | none => simp [PaymentsManager.getServiceAccess, tryCatchE] at h
      | some cfg =>
        rw [getServiceAccess_spec] at h
        by_cases hf : strFalsy cfg.accessToken = true
        · rw [if_pos hf] at h
          exact absurd h (by simp)
        · rw [if_neg hf] at h
          cases huri : cfg.neverminedProxyUri with
          | none =>
            rw [huri] at h
            exact absurd h (by simp)
          | some uri =>
            rw [huri] at h
            obtain rfl := Except.ok.inj h
            cases htok : cfg.accessToken with
            | none => exact absurd (by simp [strFalsy, htok]) hf
            | some tok =>
              simp only [htok, Option.getD_some]
              have hne : tok.isEmpty ≠ true := by
                intro hemp
                exact hf (by simp [strFalsy, htok, hemp])
              simpa using hne
  · intro cfg grant h
    rw [getServiceAccess_spec] at h
    by_cases hf : strFalsy cfg.accessToken = true
    · rw [if_pos hf] at h
      exact absurd h (by simp)
    · rw [if_neg hf] at h
      cases huri : cfg.neverminedProxyUri with
      | none =>
        rw [huri] at h
        exact absurd h (by simp)
      | some uri =>
        rw [huri] at h
        obtain rfl := Except.ok.inj h
        cases htok : cfg.accessToken with
        | none => exact absurd (by simp [strFalsy, htok]) hf
        | some tok => simp [htok]
  · intro cfg hf
    exact ⟨_, by rw [getServiceAccess_spec, if_pos hf]⟩
  · intro res e
    cases hg : PaymentsManager.getServiceAccess res with
    | error e' => simp [PaymentsManager.getVideoService, hg]
    | ok cfg => simp [PaymentsManager.getVideoService, hg]

/-- C4 witness: the contract applied to a concrete successful access
configuration and a concrete token-less configuration. -/
theorem getServiceAccess_failure_contract_witness :
    ({ neverminedProxyUri := "http://p", accessToken := "tok" } :
        PaymentsManager.ServiceAccessConfig).accessToken.isEmpty = false
      ∧ (∃ e, PaymentsManager.getServiceAccess
           (.ok (some { neverminedProxyUri := none, accessToken := none }))
             = .error e) :=
  ⟨getServiceAccess_failure_contract.1
      (.ok (some { neverminedProxyUri := some "https://p", accessToken := some "tok" }))
      { neverminedProxyUri := "http://p", accessToken := "tok" } (by decide),
   getServiceAccess_failure_contract.2.2.2.1
      { neverminedProxyUri := none, accessToken := none } rfl⟩

/-- Helper: the failure/success shape of one generation operation, stated for
`generateText2Image` (whose result carries `imageUrl`). -/
theorem generateText2Image_shape (r : Except Err VideoService.HttpResp) :
    ((VideoService.generateText2Image r).success = false →
       ((VideoService.generateText2Image r).message).isSome = true)
      ∧ ((VideoService.generateText2Image r).success = true →
           ∃ resp j, r = .ok resp ∧ resp.json = .ok j
             ∧ (VideoService.generateText2Image r).imageUrl = j.imageUrl) := by
  cases r with
  | error e =>
    refine ⟨fun _ => rfl, fun h => ?_⟩
    simp [VideoService.generateText2Image] at h
  | ok resp =>
    cases hok : resp.ok with
    | false =>
      refine ⟨fun _ => ?_, fun h => ?_⟩
      · simp [VideoService.generateText2Image, hok]
      · simp [VideoService.generateText2Image, hok] at h
    | true =>
      cases hjson : resp.json with
      | error e =>
        refine ⟨fun _ => ?_, fun h => ?_⟩
        · simp [VideoService.generateText2Image, hok, hjson]
        · simp [VideoService.generateText2Image, hok, hjson] at h
      | ok j =>
        refine ⟨fun h => ?_, fun _ => ?_⟩
        · simp [VideoService.generateText2Image, hok, hjson] at h
        · exact ⟨resp, j, rfl, hjson,
            by simp [VideoService.generateText2Image, hok, hjson]⟩

/-- Helper: the failure/success shape of `generateImage2Image`. -/
theorem generateImage2Image_shape (r : Except Err VideoService.HttpResp) :
    ((VideoService.generateImage2Image r).success = false →
       ((VideoService.generateImage2Image r).message).isSome = true)
      ∧ ((VideoService.generateImage2Image r).success = true →
           ∃ resp j, r = .ok resp ∧ resp.json = .ok j
             ∧ (VideoService.generateImage2Image r).imageUrl = j.imageUrl) := by
  cases r with
  | error e =>
    refine ⟨fun _ => rfl, fun h => ?_⟩
    simp [VideoService.generateImage2Image] at h
  | ok resp =>
    cases hok : resp.ok with
    | false =>
      refine ⟨fun _ => ?_, fun h => ?_⟩
      · simp [VideoService.generateImage2Image, hok]
      · simp [VideoService.generateImage2Image, hok] at h
    | true =>
      cases hjson : resp.json with
      | error e =>
        refine ⟨fun _ => ?_, fun h => ?_⟩
        · simp [VideoService.generateImage2Image, hok, hjson]
        · simp [VideoService.generateImage2Image, hok, hjson] at h
      | ok j =>
        refine ⟨fun h => ?_, fun _ => ?_⟩
        · simp [VideoService.generateImage2Image, hok, hjson] at h
        · exact ⟨resp, j, rfl, hjson,
            by simp [VideoService.generateImage2Image, hok, hjson]⟩

/-- Helper: the failure/success shape of `generateText2Video` (whose result
carries `url`). -/
theorem generateText2Video_shape (r : Except Err VideoService.HttpResp) :
    ((VideoService.generateText2Video r).success = false →
       ((VideoService.generateText2Video r).message).isSome = true)
      ∧ ((VideoService.generateText2Video r).success = true →
           ∃ resp j, r = .ok resp ∧ resp.json = .ok j
             ∧ (VideoService.generateText2Video r).url = j.url) := by
  cases r with
  | error e =>
    refine ⟨fun _ => rfl, fun h => ?_⟩
    simp [VideoService.generateText2Video] at h
  | ok resp =>
    cases hok : resp.ok with
    | false =>
      refine ⟨fun _ => ?_, fun h => ?_⟩
      · simp [VideoService.generateText2Video, hok]
      · simp [VideoService.generateText2Video, hok] at h
    | true =>
      cases hjson : resp.json with
      | error e =>
        refine ⟨fun _ => ?_, fun h => ?_⟩
        · simp [VideoService.generateText2Video, hok, hjson]
        · simp [VideoService.generateText2Video, hok, hjson] at h
      | ok j =>
        refine ⟨fun h => ?_, fun _ => ?_⟩
        · simp [VideoService.generateText2Video, hok, hjson] at h
        · exact ⟨resp, j, rfl, hjson,
            by simp [VideoService.generateText2Video, hok, hjson]⟩

/-- C6 counterexample: a 2xx backend response whose JSON lacks `imageUrl`
yields `{success: true}` with NO primary URI — `generateText2Image` copies
`result.imageUrl` without checking it, so success does not imply the URI is
present. -/
theorem success_without_primary_uri :
    (VideoService.generateText2Image
        (.ok { ok := true, status := 200, json := .ok {} })).success = true
      ∧ (VideoService.generateText2Image
          (.ok { ok := true, status := 200, json := .ok {} })).imageUrl = none :=
  ⟨rfl, rfl⟩

/-- C6 (amended): every `MediaGenerationResponse` with `success=false` carries
a diagnostic message; `success=true` means the HTTP call and JSON parse
succeeded and the primary URI field equals whatever the backend's JSON held —
which may be absent; the tool handlers guard separately against that
absence. -/
theorem generation_response_invariant (r : Except Err VideoService.HttpResp) :
    (((VideoService.generateText2Image r).success = false →
        ((VideoService.generateText2Image r).message).isSome = true)
      ∧ ((VideoService.generateText2Image r).success = true →
           ∃ resp j, r = .ok resp ∧ resp.json = .ok j
             ∧ (VideoService.generateText2Image r).imageUrl = j.imageUrl))
    ∧ (((VideoService.generateImage2Image r).success = false →
          ((VideoService.generateImage2Image r).message).isSome = true)
      ∧ ((VideoService.generateImage2Image r).success = true →
           ∃ resp j, r = .ok resp ∧ resp.json = .ok j
             ∧ (VideoService.generateImage2Image r).imageUrl = j.imageUrl))
    ∧ (((VideoService.generateText2Video r).success = false →
          ((VideoService.generateText2Video r).message).isSome = true)
      ∧ ((VideoService.generateText2Video r).success = true →
           ∃ resp j, r = .ok resp ∧ resp.json = .ok j
             ∧ (VideoService.generateText2Video r).url = j.url)) :=
  ⟨generateText2Image_shape r, generateImage2Image_shape r,
   generateText2Video_shape r⟩

/-- C6 witness: the invariant applied to a concrete failed call (network
error) and a concrete successful call. -/
theorem generation_response_invariant_witness :
    ((VideoService.generateText2Image (.error (.errObj "boom"))).message).isSome = true
      ∧ (∃ resp j,
           (.ok { ok := true, status := 200, json := .ok { imageUrl := some "http://img" } }
              : Except Err VideoService.HttpResp) = .ok resp
             ∧ resp.json = .ok j
             ∧ (VideoService.generateText2Image
                 (.ok { ok := true, status := 200,
                        json := .ok { imageUrl := some "http://img" } })).imageUrl
                 = j.imageUrl) :=
  ⟨(generation_response_invariant (.error (.errObj "boom"))).1.1 rfl,
   (generation_response_invariant
      (.ok { ok := true, status := 200,
             json := .ok { imageUrl := some "http://img" } })).1.2 rfl⟩

/-- C2: in both server variants, every generation tool whose balance check
resolves false returns the purchase-prompt payload — whose metadata carries
`needsPurchase = true` and exactly the configured plan DID — after only the
balance-check call, so the generation backend is never invoked. -/
theorem insufficient_balance_short_circuit :
    (∀ w : ServerV2.World,
       PaymentsManager.checkBalance w.balRes w.ddoRes = .ok false →
         ServerV2.text2image w = (.ok insufficientCreditsResponse, [CallEvent.checkBalance])
           ∧ ServerV2.image2image w = (.ok insufficientCreditsResponse, [CallEvent.checkBalance])
           ∧ ServerV2.text2video w = (.ok insufficientCreditsResponse, [CallEvent.checkBalance]))
      ∧ (∀ w : ServerV1.World, w.hasBalance = false →
           ServerV1.text2image w = (.ok insufficientCreditsResponse, [CallEvent.checkBalance])
             ∧ ServerV1.image2image w = (.ok insufficientCreditsResponse, [CallEvent.checkBalance])
             ∧ ServerV1.text2video w = (.ok insufficientCreditsResponse, [CallEvent.checkBalance]))
      ∧ insufficientCreditsResponse.metadata
          = some { needsPurchase := true, planDid := PLAN_DID }
      ∧ CallEvent.generate ∉ [CallEvent.checkBalance] := by
  refine ⟨?_, ?_, rfl, by decide⟩
  · intro w h
    exact ⟨by simp [ServerV2.text2image, h],
           by simp [ServerV2.image2image, h],
           by simp [ServerV2.text2video, h]⟩
  · intro w h
    exact ⟨by simp [ServerV1.text2image, h],
           by simp [ServerV1.image2image, h],
           by simp [ServerV1.text2video, h]⟩

/-- C2 witness: the short-circuit applied to a concrete failing-balance world
of each variant. -/
theorem insufficient_balance_short_circuit_witness :
    ServerV2.text2image
        { balRes := .error (.errObj "net down"), ddoRes := .ok none,
          accessRes := .ok none, genHttp := .error (.errObj "unused"),
          fetchRes := .error (.errObj "unused") }
      = (.ok insufficientCreditsResponse, [CallEvent.checkBalance])
      ∧ ServerV1.text2image
          { hasBalance := false, accessRes := .error (.errObj "unused"),
            genHttp := .error (.errObj "unused"),
            fetchRes := .error (.errObj "unused") }
        = (.ok insufficientCreditsResponse, [CallEvent.checkBalance]) :=
  ⟨(insufficient_balance_short_circuit.1
      { balRes := .error (.errObj "net down"), ddoRes := .ok none,
        accessRes := .ok none, genHttp := .error (.errObj "unused"),
        fetchRes := .error (.errObj "unused") } rfl).1,
   (insufficient_balance_short_circuit.2.1
      { hasBalance := false, accessRes := .error (.errObj "unused"),
        genHttp := .error (.errObj "unused"),
        fetchRes := .error (.errObj "unused") } rfl).1⟩

/-- Helper: every MIME-carrying content item of the second variant's
`text2image` responses is `image/jpeg`. -/
theorem mime_v2_text2image (w : ServerV2.World) :
    ∀ item ∈ respContent (ServerV2.text2image w),
      mimeOf item = none ∨ mimeOf item = some "image/jpeg" := by
  cases hcb : PaymentsManager.checkBalance w.balRes w.ddoRes with
  | error e => simp [ServerV2.text2image, hcb, respContent]
  | ok hasB =>
    cases hasB with
    | false =>
      simp [ServerV2.text2image, hcb, respContent, insufficientCreditsResponse, mimeOf]
    | true =>
      cases hacc : PaymentsManager.getVideoService w.accessRes with
      | error e => simp [ServerV2.text2image, hcb, hacc, respContent]
      | ok svc =>
        cases hcond : (!(VideoService.generateText2Image w.genHttp).success
            || strFalsy (VideoService.generateText2Image w.genHttp).imageUrl) with
        | true => simp [ServerV2.text2image, hcb, hacc, hcond, respContent, mimeOf]
        | false =>
          cases hdl : ServerV2.downloadAsBase64 w.fetchRes with
          | error e => simp [ServerV2.text2image, hcb, hacc, hcond, hdl, respContent]
          | ok inline =>
            cases htr : jsTruthyB64 inline <;>
              simp [ServerV2.text2image, hcb, hacc, hcond, hdl, respContent,
                ServerV2.mediaResource, htr, mimeOf]

/-- Helper: every MIME-carrying content item of the second variant's
`image2image` responses is `image/jpeg`. -/
theorem mime_v2_image2image (w : ServerV2.World) :
    ∀ item ∈ respContent (ServerV2.image2image w),
      mimeOf item = none ∨ mimeOf item = some "image/jpeg" := by
  cases hcb : PaymentsManager.checkBalance w.balRes w.ddoRes with
  | error e => simp [ServerV2.image2image, hcb, respContent, mimeOf]
  | ok hasB =>
    cases hasB with
    | false =>
      simp [ServerV2.image2image, hcb, respContent, insufficientCreditsResponse, mimeOf]
    | true =>
      cases hacc : PaymentsManager.getVideoService w.accessRes with
      | error e => simp [ServerV2.image2image, hcb, hacc, respContent, mimeOf]
      | ok svc =>
        cases hcond : (!(VideoService.generateImage2Image w.genHttp).success
            || strFalsy (VideoService.generateImage2Image w.genHttp).imageUrl) with
        | true => simp [ServerV2.image2image, hcb, hacc, hcond, respContent, mimeOf]
        | false =>
          cases hdl : ServerV2.downloadAsBase64 w.fetchRes with
          | error e => simp [ServerV2.image2image, hcb, hacc, hcond, hdl, respContent, mimeOf]
          | ok inline =>
            cases htr : jsTruthyB64 inline <;>
              simp [ServerV2.image2image, hcb, hacc, hcond, hdl, respContent,
                ServerV2.mediaResource, htr, mimeOf]

/-- Helper: every MIME-carrying content item of the second variant's
`text2video` responses is `video/mp4`. -/
theorem mime_v2_text2video (w : ServerV2.World) :
    ∀ item ∈ respContent (ServerV2.text2video w),
      mimeOf item = none ∨ mimeOf item = some "video/mp4" := by
  cases hcb : PaymentsManager.checkBalance w.balRes w.ddoRes with
  | error e => simp [ServerV2.text2video, hcb, respContent]
  | ok hasB =>
    cases hasB with
    | false =>
      simp [ServerV2.text2video, hcb, respContent, insufficientCreditsResponse, mimeOf]
    | true =>
      cases hacc : PaymentsManager.getVideoService w.accessRes with
      | error e => simp [ServerV2.text2video, hcb, hacc, respContent]
      | ok svc =>
        cases hcond : (!(VideoService.generateText2Video w.genHttp).success
            || strFalsy (VideoService.generateText2Video w.genHttp).url) with
        | true => simp [ServerV2.text2video, hcb, hacc, hcond, respContent, mimeOf]
        | false =>
          cases hdl : ServerV2.downloadAsBase64 w.fetchRes with
          | error e => simp [ServerV2.text2video, hcb, hacc, hcond, hdl, respContent]
          | ok inline =>
            cases htr : jsTruthyB64 inline <;>
              simp [ServerV2.text2video, hcb, hacc, hcond, hdl, respContent,
                ServerV2.mediaResource, htr, mimeOf]

/-- Helper: every MIME-carrying content item of the first variant's
`text2image` responses is `image/png`. -/
theorem mime_v1_text2image (w : ServerV1.World) :
    ∀ item ∈ respContent (ServerV1.text2image w),
      mimeOf item = none ∨ mimeOf item = some "image/png" := by
  cases hb : w.hasBalance with
  | false =>
    simp [ServerV1.text2image, hb, respContent, insufficientCreditsResponse, mimeOf]
  | true =>
    cases hacc : w.accessRes with
    | error e => simp [ServerV1.text2image, hb, hacc, respContent]
    | ok cfg =>
      cases hcond : (!(VideoService.generateText2Image w.genHttp).success
          || strFalsy (VideoService.generateText2Image w.genHttp).imageUrl) with
      | true => simp [ServerV1.text2image, hb, hacc, hcond, respContent, mimeOf]
      | false =>
        cases htr : jsTruthyB64 (ServerV1.downloadAsBase64 w.fetchRes) <;>
          simp [ServerV1.text2image, hb, hacc, hcond, respContent,
            ServerV1.imageContent, htr, mimeOf]

/-- Helper: every MIME-carrying content item of the first variant's
`image2image` responses is `image/png`. -/
theorem mime_v1_image2image (w : ServerV1.World) :
    ∀ item ∈ respContent (ServerV1.image2image w),
      mimeOf item = none ∨ mimeOf item = some "image/png" := by
  cases hb : w.hasBalance with
  | false =>
    simp [ServerV1.image2image, hb, respContent, insufficientCreditsResponse, mimeOf]
  | true =>
    cases hacc : w.accessRes with
    | error e => simp [ServerV1.image2image, hb, hacc, respContent, mimeOf]
    | ok cfg =>
      cases hcond : (!(VideoService.generateImage2Image w.genHttp).success
          || strFalsy (VideoService.generateImage2Image w.genHttp).imageUrl) with
      | true => simp [ServerV1.image2image, hb, hacc, hcond, respContent, mimeOf]
      | false =>
        cases htr : jsTruthyB64 (ServerV1.downloadAsBase64 w.fetchRes) <;>
          simp [ServerV1.image2image, hb, hacc, hcond, respContent,
            ServerV1.imageContent, htr, mimeOf]

/-- Helper: every MIME-carrying content item of the first variant's
`text2video` responses is `video/mp4`. -/
theorem mime_v1_text2video (w : ServerV1.World) :
    ∀ item ∈ respContent (ServerV1.text2video w),
      mimeOf item = none ∨ mimeOf item = some "video/mp4" := by
  cases hb : w.hasBalance with
  | false =>
    simp [ServerV1.text2video, hb, respContent, insufficientCreditsResponse, mimeOf]
  | true =>
    cases hacc : w.accessRes with
    | error e => simp [ServerV1.text2video, hb, hacc, respContent]
    | ok cfg =>
      cases hcond : (!(VideoService.generateText2Video w.genHttp).success
          || strFalsy (VideoService.generateText2Video w.genHttp).url) with
      | true => simp [ServerV1.text2video, hb, hacc, hcond, respContent, mimeOf]
      | false => simp [ServerV1.text2video, hb, hacc, hcond, respContent, mimeOf]

/-- C8 counterexample: a successful `text2image` response of the FIRST server
variant attaches `image/png` — not `image/jpeg` — to its content, so the
MIME type is not `image/jpeg` for every successful image-tool response. -/
theorem first_variant_png_mime :
    respContent (ServerV1.text2image
        { hasBalance := true,
          accessRes := .ok { neverminedProxyUri := "http://p", accessToken := "t" },
          genHttp := .ok { ok := true, status := 200,
                           json := .ok { imageUrl := some "http://img" } },
          fetchRes := .ok { contentLengthHeader := none, data := [1] } })
      = [.image (encodeB64 [1]) "image/png"]
      ∧ mimeOf (.image (encodeB64 [1]) "image/png") = some "image/png"
      ∧ ("image/png" : String) ≠ "image/jpeg" := by
  refine ⟨rfl, rfl, by decide⟩

/-- C8 (amended): the MIME type is fixed per tool and independent of the
backend response, but differs between the two server variants: the second
variant uses `image/jpeg` for both image tools and `video/mp4` for video,
while the first variant uses `image/png` for both image tools and `video/mp4`
for video. -/
theorem fixed_mime_types_by_variant :
    (∀ w : ServerV2.World, ∀ item ∈ respContent (ServerV2.text2image w),
        mimeOf item = none ∨ mimeOf item = some "image/jpeg")
      ∧ (∀ w : ServerV2.World, ∀ item ∈ respContent (ServerV2.image2image w),
           mimeOf item = none ∨ mimeOf item = some "image/jpeg")
      ∧ (∀ w : ServerV2.World, ∀ item ∈ respContent (ServerV2.text2video w),
           mimeOf item = none ∨ mimeOf item = some "video/mp4")
      ∧ (∀ w : ServerV1.World, ∀ item ∈ respContent (ServerV1.text2image w),
           mimeOf item = none ∨ mimeOf item = some "image/png")
      ∧ (∀ w : ServerV1.World, ∀ item ∈ respContent (ServerV1.image2image w),
           mimeOf item = none ∨ mimeOf item = some "image/png")
      ∧ (∀ w : ServerV1.World, ∀ item ∈ respContent (ServerV1.text2video w),
           mimeOf item = none ∨ mimeOf item = some "video/mp4") :=
  ⟨mime_v2_text2image, mime_v2_image2image, mime_v2_text2video,
   mime_v1_text2image, mime_v1_image2image, mime_v1_text2video⟩

/-- C8 witness: the MIME theorem applied to a concrete successful
`text2video` invocation of the second variant, whose inlined blob carries
`video/mp4`. -/
theorem fixed_mime_types_by_variant_witness :
    mimeOf (.resourceBlob "http://vid" (encodeB64 [9]) "video/mp4") = none
      ∨ mimeOf (.resourceBlob "http://vid" (encodeB64 [9]) "video/mp4")
          = some "video/mp4" :=
  fixed_mime_types_by_variant.2.2.1
    { balRes := .ok { balance := some 5 }, ddoRes := .ok none,
      accessRes := .ok (some { neverminedProxyUri := some "https://p",
                               accessToken := some "t" }),
      genHttp := .ok { ok := true, status := 200,
                       json := .ok { url := some "http://vid" } },
      fetchRes := .ok [9] }
    (.resourceBlob "http://vid" (encodeB64 [9]) "video/mp4") (by decide)
